import Mathlib

/-!
Verification of the swarm-playwright worker-pool scheduler.

Shallow embedding of the repository's core components:
* `TQ`  — `src/coordinator/task_queue.py` (`Task`, `TaskQueue` over Redis,
  modelled as a pure state record with association lists for hashes and
  score lists for sorted sets; `time.time()` calls become an explicit
  `now : Int` argument, timestamps are integral seconds);
* `LB`  — `src/load-balancer/main2fixed.py` (`Agent`, health-check cycle,
  scoring-based selection, `execute_task` dispatch; probe and HTTP outcomes
  are passed in as explicit oracle values);
* `MCP` — `src/coordinator/mcp_server.py` (`execute_swarm` aggregation over
  per-replica outcomes, where an outcome is either an `ExecutionResult` or a
  raised exception, as delivered by `asyncio.gather(..., return_exceptions=True)`).
-/

namespace SwarmSpec

namespace TQ

/-- `TASK_TIMEOUT = 300` from task_queue.py. -/
def TASK_TIMEOUT : Int := 300

/-- `RETRY_DELAY = 60` from task_queue.py. -/
def RETRY_DELAY : Int := 60

/-- `MAX_RETRIES = 3` from task_queue.py. -/
def MAX_RETRIES : Nat := 3

/-- `TaskStatus` enum from task_queue.py. -/
inductive TaskStatus
| pending
| assigned
| running
| completed
| failed
| cancelled
| retry
deriving DecidableEq, Repr

/-- The `Task` dataclass of task_queue.py.  `priority` holds the numeric
`TaskPriority.value` (LOW=1, NORMAL=2, HIGH=3, URGENT=4); `created_at`
defaults to `0` exactly as the dataclass field does;
`required_capabilities` models `metadata['required_capabilities']`
(absent key = empty list); `result` is kept opaque as a string. -/
structure Task where
  id : String
  type : String := ""
  priority : Int := 2
  status : TaskStatus := TaskStatus.pending
  created_at : Int := 0
  assigned_at : Option Int := none
  started_at : Option Int := none
  completed_at : Option Int := none
  agent_id : Option String := none
  retry_count : Nat := 0
  max_retries : Nat := MAX_RETRIES
  timeout : Int := TASK_TIMEOUT
  dependencies : List String := []
  required_capabilities : List String := []
  result : Option String := none
  error : Option String := none
deriving DecidableEq, Repr

/-- Redis hash `HGET` over an association list. -/
def hget (h : List (String × α)) (k : String) : Option α :=
  (h.find? (fun e => e.1 == k)).map (·.2)

/-- Redis hash `HSET`: insert or overwrite a field. -/
def hset (h : List (String × α)) (k : String) (v : α) : List (String × α) :=
  (k, v) :: h.filter (fun e => e.1 != k)

/-- Redis hash `HINCRBY`. -/
def hincrby (h : List (String × Int)) (k : String) (v : Int) : List (String × Int) :=
  match hget h k with
  | none => hset h k v
  | some x => hset h k (x + v)

/-- Redis set `SADD` on a hash of sets (used for `agents:tasks:{id}` and
`tasks:dependencies:{id}` key families). -/
def sadd (h : List (String × List String)) (k v : String) : List (String × List String) :=
  match hget h k with
  | none => hset h k [v]
  | some s => hset h k (if s.contains v then s else v :: s)

/-- Redis set `SREM` on a hash of sets. -/
def srem (h : List (String × List String)) (k v : String) : List (String × List String) :=
  match hget h k with
  | none => h
  | some s => hset h k (s.filter (fun x => x != v))

/-- A Redis sorted set: members with integral scores. -/
def ZSet := List (String × Int)
deriving DecidableEq, Repr

/-- `ZADD`: insert a member or update its score. -/
def zadd (z : ZSet) (member : String) (score : Int) : ZSet :=
  (member, score) :: z.filter (fun e => e.1 != member)

/-- `ZREM`. -/
def zrem (z : ZSet) (member : String) : ZSet :=
  z.filter (fun e => e.1 != member)

/-- `ZSCORE`. -/
def zscore (z : ZSet) (member : String) : Option Int :=
  (z.find? (fun e => e.1 == member)).map (·.2)

/-- `ZCARD` number of members. -/
def zcard (z : ZSet) : Nat := z.length

/-- Descending sorted-set order used by `ZREVRANGE`: higher score first,
ties broken by member in reverse lexicographic order. `zrevBefore a b`
says `a` comes no later than `b`. -/
def zrevBefore (a b : String × Int) : Bool :=
  b.2 < a.2 || (a.2 == b.2 && !(a.1 < b.1))

/-- Insertion step of the descending sort. -/
def zinsertRev (x : String × Int) : List (String × Int) → List (String × Int)
| [] => [x]
| y :: ys => if zrevBefore x y then x :: y :: ys else y :: zinsertRev x ys

/-- Sort a sorted set into descending `ZREVRANGE` order. -/
def zsortRev : List (String × Int) → List (String × Int)
| [] => []
| x :: xs => zinsertRev x (zsortRev xs)

/-- `ZREVRANGE key 0 (count-1)`: the `count` highest-scored members,
best first. The source always calls it as `zrevrange(key, 0, 100)`,
i.e. `count = 101`. -/
def zrevrange (z : ZSet) (count : Nat) : List String :=
  ((zsortRev z).take count).map (·.1)

/-- `ZRANGEBYSCORE key lo hi`: members with `lo ≤ score ≤ hi` in ascending
order. -/
def zrangebyscore (z : ZSet) (lo hi : Int) : List String :=
  (((zsortRev z).reverse).filter (fun e => lo ≤ e.2 && e.2 ≤ hi)).map (·.1)

/-- The Redis state owned by `TaskQueue` (the keys of `self.keys`). -/
structure QueueState where
  task_data : List (String × Task) := []
  pending : ZSet := []
  assigned : ZSet := []
  running : ZSet := []
  completed : ZSet := []
  failed : ZSet := []
  task_dependencies : List (String × List String) := []
  task_results : List (String × String) := []
  agent_tasks : List (String × List String) := []
  agent_heartbeat : List (String × Int) := []
  metrics : List (String × Int) := []
deriving DecidableEq, Repr

/-- The pending-queue score computed by `submit_task`:
`task.priority.value * 1000000 + (1000000 - int(task.created_at))`. -/
def priorityScore (priority created_at : Int) : Int :=
  priority * 1000000 + (1000000 - created_at)

/-- `TaskQueue.submit_task`.  `freshId` stands for the `uuid4` drawn when
the task arrives without an id. Returns the state and the task id. -/
def submitTask (s : QueueState) (task : Task) (freshId : String) : QueueState × String :=
  let task := if task.id = "" then { task with id := freshId } else task
  let s := { s with task_data := hset s.task_data task.id task }
  let s := { s with pending := zadd s.pending task.id (priorityScore task.priority task.created_at) }
  let s :=
    if task.dependencies.isEmpty then s
    else { s with task_dependencies :=
            task.dependencies.foldl (fun h dep => sadd h task.id dep) s.task_dependencies }
  let s := { s with metrics := hincrby s.metrics "tasks_submitted" 1 }
  (s, task.id)

/-- `TaskQueue._check_dependencies`: every dependency whose record exists
in the task-data hash must be `COMPLETED`; a dependency with no stored
record is skipped. -/
def checkDependencies (task_data : List (String × Task)) (task : Task) : Bool :=
  task.dependencies.all fun dep =>
    match hget task_data dep with
    | none => true
    | some d => d.status == TaskStatus.completed

/-- The capability skip condition of `get_next_task`: skip only when the
caller passed a non-empty capability list, the task demands capabilities,
and not all of them are offered. -/
def capabilityMismatch (capabilities : List String) (task : Task) : Bool :=
  !capabilities.isEmpty && !task.required_capabilities.isEmpty &&
    !(task.required_capabilities.all (fun cap => capabilities.contains cap))

/-- `TaskQueue._assign_task`. -/
def assignTask (s : QueueState) (task : Task) (agent_id : String) (now : Int) :
    QueueState × Task :=
  let task := { task with
    status := TaskStatus.assigned
    assigned_at := some now
    agent_id := some agent_id }
  let s := { s with pending := zrem s.pending task.id }
  let s := { s with assigned := zadd s.assigned task.id now }
  let s := { s with agent_tasks := sadd s.agent_tasks agent_id task.id }
  let s := { s with task_data := hset s.task_data task.id task }
  (s, task)

/-- The scan loop of `get_next_task` over the ids returned by
`ZREVRANGE pending 0 100`: orphaned ids are dropped from the queue,
capability mismatches and unmet dependencies are skipped, and the first
eligible task is assigned and returned. -/
def scanPending (agent_id : String) (capabilities : List String) (now : Int) :
    QueueState → List String → QueueState × Option Task
| s, [] => (s, none)
| s, task_id :: rest =>
  match hget s.task_data task_id with
  | none => scanPending agent_id capabilities now { s with pending := zrem s.pending task_id } rest
  | some task =>
    if capabilityMismatch capabilities task then
      scanPending agent_id capabilities now s rest
    else if checkDependencies s.task_data task then
      let p := assignTask s task agent_id now
      (p.1, some p.2)
    else
      scanPending agent_id capabilities now s rest

/-- `TaskQueue.get_next_task`. -/
def getNextTask (s : QueueState) (agent_id : String) (capabilities : List String) (now : Int) :
    QueueState × Option Task :=
  let s := { s with agent_heartbeat := hset s.agent_heartbeat agent_id now }
  scanPending agent_id capabilities now s (zrevrange s.pending 101)

/-- `TaskQueue.start_task`. -/
def startTask (s : QueueState) (task_id agent_id : String) (now : Int) : QueueState × Bool :=
  match hget s.task_data task_id with
  | none => (s, false)
  | some task =>
    if task.agent_id ≠ some agent_id ∨ task.status ≠ TaskStatus.assigned then (s, false)
    else
      let task := { task with status := TaskStatus.running, started_at := some now }
      let s := { s with assigned := zrem s.assigned task_id }
      let s := { s with running := zadd s.running task_id now }
      let s := { s with task_data := hset s.task_data task_id task }
      (s, true)

/-- `TaskQueue.complete_task`. -/
def completeTask (s : QueueState) (task_id agent_id : String) (result : String) (now : Int) :
    QueueState × Bool :=
  match hget s.task_data task_id with
  | none => (s, false)
  | some task =>
    if task.agent_id ≠ some agent_id ∨ task.status ≠ TaskStatus.running then (s, false)
    else
      let task := { task with
        status := TaskStatus.completed
        completed_at := some now
        result := some result }
      let s := { s with running := zrem s.running task_id }
      let s := { s with completed := zadd s.completed task_id now }
      let s := { s with task_results := hset s.task_results task_id result }
      let s := { s with agent_tasks := srem s.agent_tasks agent_id task_id }
      let s := { s with task_data := hset s.task_data task_id task }
      let s := { s with metrics := hincrby s.metrics "tasks_completed" 1 }
      (s, true)

/-- `TaskQueue.fail_task`.  The only precondition checked is that the
caller's agent id equals the bound `agent_id`; `retry_count` is
incremented before the `≤ max_retries` comparison, and the retry branch
re-inserts the task into `pending` with score
`now + RETRY_DELAY * retry_count`. -/
def failTask (s : QueueState) (task_id agent_id error : String) (retry : Bool) (now : Int) :
    QueueState × Bool :=
  match hget s.task_data task_id with
  | none => (s, false)
  | some task =>
    if task.agent_id ≠ some agent_id then (s, false)
    else
      let task := { task with error := some error, retry_count := task.retry_count + 1 }
      let s := { s with agent_tasks := srem s.agent_tasks agent_id task_id }
      let p :=
        if retry ∧ task.retry_count ≤ task.max_retries then
          let task := { task with
            status := TaskStatus.retry
            agent_id := none
            assigned_at := none
            started_at := none }
          ({ s with pending := zadd s.pending task_id (now + RETRY_DELAY * (task.retry_count : Int)) },
           task)
        else
          let task := { task with status := TaskStatus.failed, completed_at := some now }
          ({ s with
              failed := zadd s.failed task_id now
              metrics := hincrby s.metrics "tasks_failed" 1 },
           task)
      let s := p.1
      let task := p.2
      let s := { s with assigned := zrem s.assigned task_id, running := zrem s.running task_id }
      ({ s with task_data := hset s.task_data task_id task }, true)

/-- `TaskQueue.cancel_task`. -/
def cancelTask (s : QueueState) (task_id : String) (now : Int) : QueueState × Bool :=
  match hget s.task_data task_id with
  | none => (s, false)
  | some task =>
    if task.status = TaskStatus.completed ∨ task.status = TaskStatus.failed ∨
        task.status = TaskStatus.cancelled then (s, false)
    else
      let task := { task with status := TaskStatus.cancelled, completed_at := some now }
      let s := { s with pending := zrem s.pending task_id }
      let s := { s with assigned := zrem s.assigned task_id }
      let s := { s with running := zrem s.running task_id }
      let s :=
        match task.agent_id with
        | some aid => { s with agent_tasks := srem s.agent_tasks aid task_id }
        | none => s
      ({ s with task_data := hset s.task_data task_id task }, true)

/-- `TaskQueue.monitor_timeouts`: sweep `assigned` then `running` entries
whose score (claim/start time) is at least `TASK_TIMEOUT` seconds old,
force-failing them through `fail_task` with `retry=True`.  Assigned
entries are failed with the literal agent id `"system"`; running entries
with the task's own bound agent id (falling back to `"system"`). -/
def monitorTimeouts (s : QueueState) (now : Int) : QueueState :=
  let assignedOld := zrangebyscore s.assigned 0 (now - TASK_TIMEOUT)
  let s := assignedOld.foldl
    (fun s tid => (failTask s tid "system" "Timeout d'assignation" true now).1) s
  let runningOld := zrangebyscore s.running 0 (now - TASK_TIMEOUT)
  runningOld.foldl
    (fun s tid =>
      match hget s.task_data tid with
      | none => s
      | some task =>
        (failTask s tid (task.agent_id.getD "system") "Timeout d'exécution" true now).1) s

/-- Eligibility of a pending-queue member as tested by the scan loop of
`get_next_task`: its record exists, no capability mismatch, and its
dependencies check out. -/
def eligibleKey (task_data : List (String × Task)) (capabilities : List String)
    (k : String) : Bool :=
  match hget task_data k with
  | none => false
  | some u => !capabilityMismatch capabilities u && checkDependencies task_data u

/-- The dataclass default of the `created_at` field (`created_at: float = 0`);
`some` holds a numeric value, `none` is Python `None`. -/
def createdAtFieldDefault : Option Int := some 0

/-- The `created_at` clause of `Task.__post_init__`: replace the value by
the current time only when it `is None`. -/
def postInitCreatedAt (now : Int) (created_at : Option Int) : Option Int :=
  if created_at = none then some now else created_at

end TQ

namespace LB

/-- Python's two-argument `max` on rationals. -/
def pymax (a b : ℚ) : ℚ := if b ≤ a then a else b

/-- Python's two-argument `min` on rationals. -/
def pymin (a b : ℚ) : ℚ := if a ≤ b then a else b

/-- The `performance_metrics` dict reported by an agent's health endpoint,
as consumed by `score_agent` in main2fixed.py: each key may be absent,
in which case `dict.get` supplies the defaults `0.5` and `10.0`. -/
structure PerfDict where
  success_rate : Option ℚ := none
  avg_response_time : Option ℚ := none
deriving DecidableEq, Repr

/-- The `Agent` pydantic model of main2fixed.py.  `performance_metrics`
is `none` when the dict is empty (falsy in the `if agent.performance_metrics:`
test) and `some d` otherwise; `last_seen` is a timestamp in seconds. -/
structure Agent where
  id : String
  url : String := ""
  status : String := "unknown"
  load : Int := 0
  last_seen : Int := 0
  capabilities : List String := []
  performance_metrics : Option PerfDict := none
  failed_attempts : Nat := 0
  max_failed_attempts : Nat := 3
deriving DecidableEq, Repr

/-- Outcome of one `GET {agent.url}/health` probe inside
`health_check_agents`: a 200 response carrying load and metrics, a non-200
response, or a raised connection error. -/
inductive ProbeOutcome
| ok (load : Int) (metrics : Option PerfDict)
| badStatus
| connError
deriving DecidableEq, Repr

/-- One iteration of the `health_check_agents` loop for a single agent:
returns `none` when the agent is deleted from the registry.  Deletion is
only reachable in the connection-error branch, after `failed_attempts`
was incremented, when `now - last_seen > 300` seconds or
`failed_attempts ≥ max_failed_attempts`. -/
def healthCheckAgent (now : Int) (a : Agent) : ProbeOutcome → Option Agent
| ProbeOutcome.ok load metrics =>
  some { a with
    status := "healthy"
    load := load
    last_seen := now
    performance_metrics := metrics
    failed_attempts := 0 }
| ProbeOutcome.badStatus =>
  some { a with status := "unhealthy", failed_attempts := a.failed_attempts + 1 }
| ProbeOutcome.connError =>
  let a := { a with status := "unreachable", failed_attempts := a.failed_attempts + 1 }
  if 300 < now - a.last_seen ∨ a.max_failed_attempts ≤ a.failed_attempts then none
  else some a

/-- `LoadBalancer.health_check_agents`: one cycle over the registry, each
agent paired with its probe outcome. -/
def healthCheckAgents (now : Int) (agents : List (Agent × ProbeOutcome)) : List Agent :=
  agents.filterMap fun p => healthCheckAgent now p.1 p.2

/-- `score_agent` from `LoadBalancer.select_agent` (main2fixed.py):
`base = 100 - load`; when the metrics dict is non-empty add
`success_rate * 20` and subtract `min(avg_response_time / 1000, 10)`;
finally floor at 0. -/
def score_agent (a : Agent) : ℚ :=
  let base : ℚ := 100 - (a.load : ℚ)
  let base :=
    match a.performance_metrics with
    | none => base
    | some m =>
      base + (m.success_rate.getD (1 / 2)) * 20
        - pymin ((m.avg_response_time.getD 10) / 1000) 10
  pymax base 0

/-- Modelled from the spec: the claimed scoring formula
`clamp(100 − loadPercentage, 0, ∞) + successRate×20 − min(avgResponseTimeMs/1000, 10)`,
floored at 0, evaluated with the same metric defaults the code uses.
Declared only to compare with `score_agent`, the definition from the source. -/
def scoreSpec (a : Agent) : ℚ :=
  let sr := ((a.performance_metrics.bind PerfDict.success_rate).getD (1 / 2))
  let art := ((a.performance_metrics.bind PerfDict.avg_response_time).getD 10)
  pymax (pymax (100 - (a.load : ℚ)) 0 + sr * 20 - pymin (art / 1000) 10) 0

/-- The candidate filter of `select_agent`: `status == "healthy"` and
either no declared capabilities or the task type among them. -/
def capableHealthy (agents : List Agent) (task_type : String) : List Agent :=
  agents.filter fun a =>
    a.status == "healthy" && (a.capabilities.isEmpty || a.capabilities.contains task_type)

/-- Stable descending insertion for Python's `list.sort(key=score, reverse=True)`. -/
def insertScoredDesc (x : Agent × ℚ) : List (Agent × ℚ) → List (Agent × ℚ)
| [] => [x]
| y :: ys => if y.2 ≤ x.2 then x :: y :: ys else y :: insertScoredDesc x ys

/-- Stable sort of the scored candidates, best score first. -/
def sortScoredDesc : List (Agent × ℚ) → List (Agent × ℚ)
| [] => []
| x :: xs => insertScoredDesc x (sortScoredDesc xs)

/-- `LoadBalancer.select_agent` without an explicit agent id: the list
`top_agents = scored_agents[:max(1, len(scored_agents) // 3)]` from which
`random.choice` draws.  The empty list models the `None` return. -/
def selectTopAgents (agents : List Agent) (task_type : String) : List Agent :=
  let capable := capableHealthy agents task_type
  if capable.isEmpty then []
  else
    let scored := capable.map fun a => (a, score_agent a)
    let sorted := sortScoredDesc scored
    (sorted.take (max 1 (scored.length / 3))).map (·.1)

/-- `LoadBalancer.select_agent` with an explicit `agent_id`: return it only
when registered and healthy, never falling back. -/
def selectExplicit (agents : List (String × Agent)) (agent_id : String) : Option Agent :=
  match hgetA agents agent_id with
  | some a => if a.status == "healthy" then some a else none
  | none => none
where
  hgetA (h : List (String × Agent)) (k : String) : Option Agent :=
    (h.find? (fun e => e.1 == k)).map (·.2)

/-- Outcome of the `POST {agent.url}/execute` call inside `execute_task`:
a 200 response, a non-200 status code, or a raised transport error. -/
inductive ExecOutcome
| ok
| httpError (code : Nat)
| exn (msg : String)
deriving DecidableEq, Repr

/-- The response dict built by `LoadBalancer.execute_task`. -/
structure ExecResponse where
  success : Bool
  error : Option String := none
  agent_id : String
deriving DecidableEq, Repr

/-- `LoadBalancer.execute_task` (main2fixed.py), for a given agent load:
the task is registered in `active_tasks`, the execute call gives one of
the three outcomes, `agent.load` is updated to `max(0, load - 1)` only in
the 200 branch, and the `finally` block removes the active-task entry on
every path.  Returns the response dict, the agent's new load, and the new
`active_tasks` key set. -/
def executeTask (agent_id : String) (load : Int) (active : List String) (task_id : String)
    (outcome : ExecOutcome) : ExecResponse × Int × List String :=
  let active := task_id :: active.filter (fun x => x != task_id)
  let p : ExecResponse × Int :=
    match outcome with
    | ExecOutcome.ok =>
      ({ success := true, error := none, agent_id := agent_id }, max 0 (load - 1))
    | ExecOutcome.httpError code =>
      ({ success := false, error := some ("Erreur HTTP " ++ toString code),
         agent_id := agent_id }, load)
    | ExecOutcome.exn msg =>
      ({ success := false, error := some msg, agent_id := agent_id }, load)
  (p.1, p.2, active.filter (fun x => x != task_id))

/-- Whether the execute call came back as a 200 success. -/
def ExecOutcome.isOk : ExecOutcome → Bool
| ExecOutcome.ok => true
| _ => false

end LB

namespace MCP

/-- The `ExecutionResult` pydantic model (models_pydantic.py), with the
fields `execute_swarm` touches.  `execution_time` is
`Optional[PositiveFloat]`: `none` is Python `None`, and pydantic accepts
a numeric value only when it is strictly positive (see
`validExecutionTime`). -/
structure ExecutionResult where
  task_id : String
  success : Bool
  error : Option String := none
  execution_time : Option ℚ := none
deriving DecidableEq, Repr

/-- The pydantic validation of the `execution_time : Optional[PositiveFloat]`
field: `None` is accepted, a numeric value must be strictly positive. -/
def validExecutionTime : Option ℚ → Bool
| none => true
| some x => decide (0 < x)

/-- The pydantic constructor `ExecutionResult(...)`: it raises
`ValidationError` when the `execution_time` argument violates the
`PositiveFloat` constraint. -/
def mkExecutionResult (task_id : String) (success : Bool) (error : Option String)
    (execution_time : Option ℚ) : Except String ExecutionResult :=
  if validExecutionTime execution_time then
    Except.ok { task_id := task_id, success := success, error := error,
                execution_time := execution_time }
  else
    Except.error "ValidationError"

/-- Execution strategies of `SwarmExecuteRequest`. -/
inductive Strategy
| parallel
| sequential
| round_robin
deriving DecidableEq, Repr

/-- The result-processing loop of `execute_swarm`: each gathered item is
either a raised exception — which the code converts via
`ExecutionResult(task_id="unknown", success=False, error=str(result),
execution_time=0)` — or an already-constructed `ExecutionResult` counted
by its `success` flag.  The loop is not wrapped in any try/except, so an
exception thrown by the conversion constructor propagates and aborts the
aggregation; `Except.error` models that abort. -/
def processResults : List (Except String ExecutionResult) →
    Except String (List ExecutionResult × Nat × Nat)
| [] => Except.ok ([], 0, 0)
| Except.error e :: rest =>
  match mkExecutionResult "unknown" false (some e) (some 0) with
  | Except.error ve => Except.error ve
  | Except.ok r =>
    match processResults rest with
    | Except.error ve => Except.error ve
    | Except.ok p => Except.ok (r :: p.1, p.2.1, p.2.2 + 1)
| Except.ok r :: rest =>
  match processResults rest with
  | Except.error ve => Except.error ve
  | Except.ok p =>
    Except.ok (r :: p.1, if r.success then p.2.1 + 1 else p.2.1,
      if r.success then p.2.2 else p.2.2 + 1)

/-- The `SwarmExecuteResponse` fields computed by `execute_swarm`. -/
structure SwarmResponse where
  success : Bool
  results : List ExecutionResult
  total_replicas : Nat
  successful_replicas : Nat
  failed_replicas : Nat
  strategy_used : Strategy
deriving Repr

/-- `SwarmCoordinator.execute_swarm`, given the per-replica outcomes in
replica order (for PARALLEL and ROUND_ROBIN these come from
`asyncio.gather(..., return_exceptions=True)`; for SEQUENTIAL from
awaiting `execute_task` directly, whose catch-all `except` makes every
outcome an `ExecutionResult`).  An uncaught exception in the
result-processing loop aborts the call with no response
(`Except.error`). -/
def executeSwarm (replicas : Nat) (strategy : Strategy)
    (outcomes : List (Except String ExecutionResult)) : Except String SwarmResponse :=
  match processResults outcomes with
  | Except.error ve => Except.error ve
  | Except.ok p =>
    Except.ok
      { success := decide (0 < p.2.1)
        results := p.1
        total_replicas := replicas
        successful_replicas := p.2.1
        failed_replicas := p.2.2
        strategy_used := strategy }

end MCP

/-! ## Concrete scenario data used by the claim theorems -/

open TQ LB MCP

/-- A task with `max_retries = 2`, for the repeated-failure scenario. -/
def c1_t : Task := { id := "t1", type := "nav", max_retries := 2, created_at := 100 }

def c1_s1 : QueueState := (submitTask {} c1_t "x").1

def c1_s2 : QueueState := (getNextTask c1_s1 "a1" [] 200).1

def c1_s3 : QueueState := (failTask c1_s2 "t1" "a1" "e1" true 210).1

def c1_s4 : QueueState := (getNextTask c1_s3 "a1" [] 300).1

def c1_s5 : QueueState := (failTask c1_s4 "t1" "a1" "e2" true 310).1

def c1_s6 : QueueState := (getNextTask c1_s5 "a1" [] 500).1

/-- The state after the third consecutive failure of `c1_t`. -/
def c1_s7 : QueueState := (failTask c1_s6 "t1" "a1" "e3" true 510).1

/-- A freshly assigned task, input for the single-step retry bound. -/
def c1w_t : Task :=
  { id := "t1", status := TaskStatus.assigned, agent_id := some "a1", assigned_at := some 5 }

def c1w_s : QueueState := { task_data := [("t1", c1w_t)], assigned := [("t1", 5)] }

def c1w_t2 : Task := (hget (failTask c1w_s "t1" "a1" "e" true 10).1.task_data "t1").getD c1w_t

/-- An Assigned task whose agent never called `start`, stale past the
global sweep window, with a small per-task `timeout`. -/
def c3_t : Task :=
  { id := "t1", status := TaskStatus.assigned, agent_id := some "a1", assigned_at := some 0,
    timeout := 60, max_retries := 2 }

/-- A Running task whose own `timeout` (600 s) has not yet elapsed. -/
def c3_t2 : Task :=
  { id := "t2", status := TaskStatus.running, agent_id := some "a2", assigned_at := some 0,
    started_at := some 0, timeout := 600 }

def c3_s : QueueState :=
  { task_data := [("t1", c3_t), ("t2", c3_t2)], assigned := [("t1", 0)], running := [("t2", 0)] }

/-- A Running task about to be failed with a retry, for the backoff claim. -/
def c5_t : Task :=
  { id := "t1", status := TaskStatus.running, agent_id := some "a1", assigned_at := some 0,
    started_at := some 0 }

def c5_s : QueueState := { task_data := [("t1", c5_t)], running := [("t1", 0)] }

/-- State right after `fail_task(t1, a1, retry=True)` at time 1000. -/
def c5_s1 : QueueState := (failTask c5_s "t1" "a1" "boom" true 1000).1

/-! ## Helper lemmas -/

theorem hget_hset_self (h : List (String × α)) (k : String) (v : α) :
    hget (hset h k v) k = some v := by
  simp [hget, hset, List.find?]

theorem zscore_zadd_self (z : ZSet) (m : String) (sc : Int) :
    zscore (zadd z m sc) m = some sc := by
  simp [zscore, zadd, List.find?]

theorem pymax_eq_of_le {a b : ℚ} (h : b ≤ a) : pymax a b = a := if_pos h

/-- `fail_task` is rejected without any state change when the caller's
agent id does not match the task's bound agent. -/
theorem failTask_agent_mismatch (s : QueueState) (tid aid err : String) (retry : Bool)
    (now : Int) (t : Task) (h : hget s.task_data tid = some t)
    (hag : t.agent_id ≠ some aid) :
    failTask s tid aid err retry now = (s, false) := by
  unfold failTask
  rw [h]
  dsimp only
  exact if_pos hag

/-- `fail_task`, on a stored task whose bound agent matches the caller,
stores the task back with `retry_count` incremented by one. -/
theorem failTask_task_data_self (s : QueueState) (tid aid err : String) (retry : Bool)
    (now : Int) (t : Task) (h : hget s.task_data tid = some t)
    (hag : t.agent_id = some aid) :
    ∃ t', hget (failTask s tid aid err retry now).1.task_data tid = some t'
      ∧ t'.retry_count = t.retry_count + 1 := by
  unfold failTask
  rw [h]
  dsimp only
  rw [if_neg (by simp [hag])]
  split
  · exact ⟨_, hget_hset_self _ _ _, rfl⟩
  · exact ⟨_, hget_hset_self _ _ _, rfl⟩

/-! ## Claim theorems -/

/-- Claim C1, counterexample: a task with `maxRetries = 2` that fails three
consecutive times (each `fail` with the agent id currently bound) ends with
`retryCount = 3 > maxRetries = 2`, refuting both "retryCount never exceeds
maxRetries" and "ends Failed with retryCount == 2": `fail_task` increments
`retry_count` before comparing it with `max_retries`. -/
theorem c1_counterexample :
    (hget c1_s7.task_data "t1").map Task.retry_count = some 3
    ∧ (hget c1_s7.task_data "t1").map Task.max_retries = some 2
    ∧ (hget c1_s7.task_data "t1").map Task.status = some TaskStatus.failed
    ∧ ¬ (3 ≤ 2) := by
  refine ⟨by decide, by decide, by decide, by decide⟩

/-- Claim C1, amended: one `fail_task` call increments `retryCount` by at
most one, so it never exceeds `maxRetries + 1` when it did not exceed
`maxRetries` before; the `maxRetries = 2` scenario ends in terminal
`Failed` with `retryCount = 3`, the task is no longer in the pending
queue, and a further `get_next_task` returns nothing (no fourth
scheduling attempt). -/
theorem c1_prop :
    (∀ (s : QueueState) (tid aid err : String) (retry : Bool) (now : Int) (t t' : Task),
        hget s.task_data tid = some t →
        t.retry_count ≤ t.max_retries →
        hget (failTask s tid aid err retry now).1.task_data tid = some t' →
        t'.retry_count ≤ t.max_retries + 1)
    ∧ (hget c1_s7.task_data "t1").map Task.retry_count = some 3
    ∧ (hget c1_s7.task_data "t1").map Task.status = some TaskStatus.failed
    ∧ zscore c1_s7.pending "t1" = none
    ∧ (getNextTask c1_s7 "a1" [] 600).2 = none := by
  refine ⟨?_, by decide, by decide, by decide, by decide⟩
  intro s tid aid err retry now t t' h hle h'
  by_cases hag : t.agent_id = some aid
  · obtain ⟨t'', h'', hrc⟩ := failTask_task_data_self s tid aid err retry now t h hag
    rw [h''] at h'
    cases h'
    omega
  · rw [failTask_agent_mismatch s tid aid err retry now t h hag] at h'
    rw [h] at h'
    cases h'
    omega

/-- Witness for the hypotheses of `c1_prop`: one accepted `fail_task`
call on a freshly assigned task raises `retryCount` to at most
`maxRetries + 1`. -/
theorem c1_witness : c1w_t2.retry_count ≤ c1w_t.max_retries + 1 :=
  c1_prop.1 c1w_s "t1" "a1" "e" true 10 c1w_t c1w_t2 (by decide) (by decide) (by decide)

/-- Claim C3: the timeout sweep is broken for Assigned tasks. At time 301
the sweep selects task `t1` (assigned at 0, so past the *global*
`TASK_TIMEOUT = 300`), but `fail_task` is called with the literal agent id
`"system"`, which fails the bound-agent check, so the task silently stays
Assigned with no error — it is never transitioned to Retry as the claim
requires.  Moreover the sweep compares against the global 300-second
constant, not the task's own `timeoutSeconds`: the Running task `t2` with
`timeout = 600` is force-failed to Retry at age 301 < 600. -/
theorem c3_prop :
    zrangebyscore c3_s.assigned 0 (301 - TASK_TIMEOUT) = ["t1"]
    ∧ hget (monitorTimeouts c3_s 301).task_data "t1" = some c3_t
    ∧ c3_t.status = TaskStatus.assigned
    ∧ c3_t.timeout = 60
    ∧ (hget (monitorTimeouts c3_s 301).task_data "t2").map Task.status
        = some TaskStatus.retry
    ∧ (hget (monitorTimeouts c3_s 301).task_data "t2").map Task.error
        = some (some "Timeout d'exécution")
    ∧ c3_t2.timeout = 600 ∧ (301 : Int) < 600 := by
  refine ⟨by decide, by decide, by decide, by decide, by decide, by decide, by decide, by decide⟩

/-- Claim C5: a task failed with `retryAllowed = true` at time 1000 is
re-inserted into the pending queue with the scheduled ready time
`1000 + RETRY_DELAY × 1 = 1060` as its score, yet a `get_next_task` call
at time 1000 — before the backoff delay has elapsed — already returns it:
the scan never compares the stored ready time with the current time. -/
theorem c5_prop :
    zscore c5_s1.pending "t1" = some (1000 + RETRY_DELAY * 1)
    ∧ (getNextTask c5_s1 "a2" [] 1000).2.map Task.id = some "t1"
    ∧ (1000 : Int) < 1000 + RETRY_DELAY * 1 := by
  refine ⟨by decide, by decide, by decide⟩

end SwarmSpec

namespace SwarmSpec

open TQ LB MCP

/-! ## C4: idempotence of terminal states -/

def c4_t : Task := { id := "t1", max_retries := 3, created_at := 50 }

def c4_s1 : QueueState := (submitTask {} c4_t "x").1

def c4_s2 : QueueState := (getNextTask c4_s1 "a1" [] 60).1

def c4_s3 : QueueState := (startTask c4_s2 "t1" "a1" 70).1

/-- State after the full happy path submit → assign → start → complete. -/
def c4_s4 : QueueState := (completeTask c4_s3 "t1" "a1" "ok" 80).1

/-- The Completed record of `c4_s4` (its `agent_id` is still bound). -/
def c4_tc : Task := (hget c4_s4.task_data "t1").getD c4_t

/-- Claim C4, counterexample: `fail()` on an already-terminal task is not
a no-op.  After completing `t1`, its `agent_id` is still bound to "a1",
and `fail_task("t1", "a1", retry=True)` — which validates only the agent
binding, never the status — returns `true`, flips the Completed task to
Retry and re-inserts it into the pending queue. -/
theorem c4_counterexample :
    (hget c4_s4.task_data "t1").map Task.status = some TaskStatus.completed
    ∧ (hget c4_s4.task_data "t1").map Task.agent_id = some (some "a1")
    ∧ (failTask c4_s4 "t1" "a1" "late" true 90).2 = true
    ∧ (hget (failTask c4_s4 "t1" "a1" "late" true 90).1.task_data "t1").map Task.status
        = some TaskStatus.retry
    ∧ zscore (failTask c4_s4 "t1" "a1" "late" true 90).1.pending "t1" = some 150 := by
  refine ⟨by decide, by decide, by decide, by decide, by decide⟩

/-- Claim C4, amended: `complete`, `start` and `cancel` validate their
expected prior status (and, for `complete`/`start`, the bound agent) and
on mismatch — terminal states included — return `false` without touching
the state; `fail` validates only the agent binding, returning `false`
without mutation when the caller's agent id differs from the bound one,
but not when the task is terminal with its agent still bound. -/
theorem c4_prop :
    (∀ (s : QueueState) (tid aid res : String) (now : Int) (t : Task),
        hget s.task_data tid = some t → t.status ≠ TaskStatus.running →
        completeTask s tid aid res now = (s, false))
    ∧ (∀ (s : QueueState) (tid aid : String) (now : Int) (t : Task),
        hget s.task_data tid = some t → t.status ≠ TaskStatus.assigned →
        startTask s tid aid now = (s, false))
    ∧ (∀ (s : QueueState) (tid : String) (now : Int) (t : Task),
        hget s.task_data tid = some t →
        (t.status = TaskStatus.completed ∨ t.status = TaskStatus.failed ∨
          t.status = TaskStatus.cancelled) →
        cancelTask s tid now = (s, false))
    ∧ (∀ (s : QueueState) (tid aid err : String) (retry : Bool) (now : Int) (t : Task),
        hget s.task_data tid = some t → t.agent_id ≠ some aid →
        failTask s tid aid err retry now = (s, false)) := by
  refine ⟨?_, ?_, ?_, ?_⟩
  · intro s tid aid res now t h hst
    unfold completeTask
    rw [h]
    dsimp only
    exact if_pos (Or.inr hst)
  · intro s tid aid now t h hst
    unfold startTask
    rw [h]
    dsimp only
    exact if_pos (Or.inr hst)
  · intro s tid now t h hst
    unfold cancelTask
    rw [h]
    dsimp only
    exact if_pos hst
  · intro s tid aid err retry now t h hag
    exact failTask_agent_mismatch s tid aid err retry now t h hag

/-- Witness for the hypotheses of `c4_prop`: `complete` on the
already-Completed task of the C4 scenario is a no-op returning `false`,
and so is `fail` by a non-bound agent. -/
theorem c4_witness :
    completeTask c4_s4 "t1" "a1" "again" 95 = (c4_s4, false)
    ∧ failTask c4_s4 "t1" "other" "e" true 95 = (c4_s4, false) :=
  ⟨c4_prop.1 c4_s4 "t1" "a1" "again" 95 c4_tc (by decide) (by decide),
   c4_prop.2.2.2 c4_s4 "t1" "other" "e" true 95 c4_tc (by decide) (by decide)⟩

/-! ## C6: load release in the dispatcher -/

/-- Claim C6, counterexample: dispatching against an agent with load 5
and receiving a non-2xx worker response leaves the load at 5 — the
decrement happens only in the HTTP-200 branch of `execute_task`, so it is
not "decremented exactly once relative to its value at dispatch,
independent of which branch executed". -/
theorem c6_counterexample :
    (executeTask "a1" 5 [] "t7" (ExecOutcome.httpError 500)).2.1 = 5
    ∧ ((5 : Int) ≠ 5 - 1) := by
  refine ⟨by decide, by decide⟩

/-- Claim C6, amended: `execute_task` updates the agent's load to
`max(0, load − 1)` exactly when the worker call returns HTTP 200; on a
non-2xx status or a raised transport error the load is left unchanged.
The response's `success` flag matches the 200 branch, and the
`active_tasks` entry is removed on every path (the `finally` block). -/
theorem c6_prop :
    ∀ (aid : String) (load : Int) (active : List String) (tid : String)
      (outcome : ExecOutcome),
      ((executeTask aid load active tid outcome).1.success = outcome.isOk)
      ∧ (outcome.isOk = true →
          (executeTask aid load active tid outcome).2.1 = max 0 (load - 1))
      ∧ (outcome.isOk = false →
          (executeTask aid load active tid outcome).2.1 = load)
      ∧ tid ∉ (executeTask aid load active tid outcome).2.2 := by
  intro aid load active tid outcome
  cases outcome <;> simp [executeTask, ExecOutcome.isOk, List.mem_filter]

/-- Witness for the hypotheses of `c6_prop` at the 200 branch. -/
theorem c6_witness : (executeTask "a" 5 [] "t" ExecOutcome.ok).2.1 = max 0 (5 - 1) :=
  (c6_prop "a" 5 [] "t" ExecOutcome.ok).2.1 rfl

/-! ## C7: health-check eviction -/

/-- A registered agent that has already failed five consecutive probes. -/
def c7_a : LB.Agent := { id := "x", status := "unhealthy", failed_attempts := 5, last_seen := 0 }

/-- A healthy-as-of-last-cycle agent (`failed_attempts = 0`, fresh
`last_seen`). -/
def c7w_a : LB.Agent := { id := "w", status := "healthy", failed_attempts := 0, last_seen := 0 }

/-- Claim C7, counterexample: the eviction policy is *not* checked on
every probe outcome.  An agent with `failed_attempts = 5 ≥
max_failed_attempts = 3` whose probe returns a non-200 status is kept in
the registry (with `failed_attempts = 6`): removal is only reachable in
the connection-error branch, so after the cycle a registered agent still
violates the `consecutiveFailures < maxFailedAttempts` bound. -/
theorem c7_counterexample :
    (healthCheckAgents 10 [(c7_a, ProbeOutcome.badStatus)]).map LB.Agent.failed_attempts = [6]
    ∧ c7_a.max_failed_attempts = 3
    ∧ ¬ (6 < 3) := by
  refine ⟨by decide, by decide, by decide⟩

/-- Claim C7, amended: an agent that was healthy in the previous cycle
(`consecutiveFailures = 0`, recent `lastSeen`) and fails exactly this
cycle's probe is kept in the registry while the incremented failure count
stays below `maxFailedAttempts`; and an agent whose probe raises a
connection error is removed when `consecutiveFailures` (after increment)
reaches `maxFailedAttempts` or `now − lastSeen` exceeds 300 seconds —
but a non-200 probe response never triggers eviction. -/
theorem c7_prop :
    (∀ (now : Int) (a : LB.Agent) (o : ProbeOutcome),
        a.failed_attempts = 0 →
        a.failed_attempts + 1 < a.max_failed_attempts →
        now - a.last_seen ≤ 300 →
        (o = ProbeOutcome.badStatus ∨ o = ProbeOutcome.connError) →
        (healthCheckAgent now a o).isSome = true)
    ∧ (∀ (now : Int) (a : LB.Agent),
        (a.max_failed_attempts ≤ a.failed_attempts + 1 ∨ 300 < now - a.last_seen) →
        healthCheckAgent now a ProbeOutcome.connError = none)
    ∧ (∀ (now : Int) (a : LB.Agent),
        (healthCheckAgent now a ProbeOutcome.badStatus).isSome = true) := by
  refine ⟨?_, ?_, ?_⟩
  · intro now a o h0 hlt hseen ho
    rcases ho with rfl | rfl
    · simp [healthCheckAgent]
    · have hc : ¬ (300 < now - a.last_seen ∨ a.max_failed_attempts ≤ a.failed_attempts + 1) := by
        push_neg
        exact ⟨by omega, by omega⟩
      simp only [healthCheckAgent]
      rw [if_neg hc]
      rfl
  · intro now a h
    simp only [healthCheckAgent]
    rcases h with h | h
    · rw [if_pos (Or.inr h)]
    · rw [if_pos (Or.inl h)]
  · intro now a
    simp [healthCheckAgent]

/-- Witness for the hypotheses of `c7_prop`: a previously healthy
agent failing one probe is retained; a long-unreachable agent is evicted
on a connection error. -/
theorem c7_witness :
    (healthCheckAgent 10 c7w_a ProbeOutcome.badStatus).isSome = true
    ∧ healthCheckAgent 1000 c7w_a ProbeOutcome.connError = none :=
  ⟨c7_prop.1 10 c7w_a ProbeOutcome.badStatus (by decide) (by decide) (by decide)
      (Or.inl rfl),
   c7_prop.2.1 1000 c7w_a (Or.inr (by decide))⟩

/-! ## C8: agent scoring and top-third selection -/

/-- A healthy agent reporting a load above 100 with perfect metrics: the
claimed inner clamp would matter here. -/
def c8_bad : LB.Agent :=
  { id := "x", status := "healthy", load := 150,
    performance_metrics := some { success_rate := some 1, avg_response_time := some 1 } }

/-- Shared metrics for the two scenario-C agents. -/
def c8_m : PerfDict := { success_rate := some (1 / 2), avg_response_time := some 1000 }

def c8_a90 : LB.Agent :=
  { id := "a90", status := "healthy", load := 90, performance_metrics := some c8_m }

def c8_a20 : LB.Agent :=
  { id := "a20", status := "healthy", load := 20, performance_metrics := some c8_m }

/-- Claim C8, counterexample: the code computes
`max(100 − load + successRate×20 − min(avgResponseTime/1000, 10), 0)` with
no inner clamp of `100 − load` at 0.  For a healthy agent with load 150,
success rate 1 and response time 1 ms, the claimed formula yields
`0 + 20 − 1/1000 = 19999/1000` while `score_agent` yields `0`. -/
theorem c8_counterexample :
    score_agent c8_bad = 0
    ∧ scoreSpec c8_bad = 19999 / 1000
    ∧ (0 : ℚ) ≠ 19999 / 1000 := by
  have hm : c8_bad.performance_metrics
      = some { success_rate := some 1, avg_response_time := some 1 } := rfl
  have hl : c8_bad.load = 150 := rfl
  refine ⟨?_, ?_, by norm_num⟩
  · simp only [score_agent, hm, hl]
    norm_num [pymin, pymax]
  · simp only [scoreSpec, hm, hl]
    norm_num [pymin, pymax]

/-- Claim C8, amended: for agents with a non-empty metrics dict and load
at most 100 the code's score agrees with the claimed formula (the inner
clamp is only missing for loads above 100, and the metric bonus is only
skipped when the metrics dict is empty); in Scenario C — two Healthy
agents with equal metrics at loads 90 and 20 — the 20%-load agent scores
strictly higher and, the top-third width being `max(1, 2 // 3) = 1`, it
is the unique selectable agent. -/
theorem c8_scores90 : score_agent c8_a90 = 19 := by
  have hm : c8_a90.performance_metrics = some c8_m := rfl
  have hl : c8_a90.load = 90 := rfl
  simp only [score_agent, hm, hl, c8_m]
  norm_num [pymin, pymax]

theorem c8_scores20 : score_agent c8_a20 = 89 := by
  have hm : c8_a20.performance_metrics = some c8_m := rfl
  have hl : c8_a20.load = 20 := rfl
  simp only [score_agent, hm, hl, c8_m]
  norm_num [pymin, pymax]

theorem c8_prop :
    (∀ (a : LB.Agent) (m : PerfDict), a.performance_metrics = some m →
        (a.load : ℚ) ≤ 100 → score_agent a = scoreSpec a)
    ∧ selectTopAgents [c8_a90, c8_a20] "default" = [c8_a20]
    ∧ score_agent c8_a90 < score_agent c8_a20 := by
  refine ⟨?_, ?_, ?_⟩
  · intro a m hm hload
    have h0 : (0 : ℚ) ≤ 100 - (a.load : ℚ) := by linarith
    simp only [score_agent, scoreSpec, hm, Option.some_bind, pymax_eq_of_le h0]
  · have hcap : capableHealthy [c8_a90, c8_a20] "default" = [c8_a90, c8_a20] := rfl
    have hlt : ¬ (score_agent c8_a20 ≤ score_agent c8_a90) := by
      rw [c8_scores90, c8_scores20]
      norm_num
    unfold selectTopAgents
    rw [hcap]
    dsimp only [List.map, sortScoredDesc, insertScoredDesc]
    rw [if_neg (by decide)]
    rw [if_neg hlt]
    rfl
  · rw [c8_scores90, c8_scores20]
    norm_num

/-- Witness for the hypotheses of `c8_prop`: the code score of the
20%-load scenario agent coincides with the claimed formula. -/
theorem c8_witness : score_agent c8_a20 = scoreSpec c8_a20 :=
  c8_prop.1 c8_a20 c8_m rfl (by norm_num [c8_a20])

/-! ## C9: swarm aggregation -/

/-- Three-replica outcome list: one success, one raised exception, one
failure — the exception as delivered by `gather(return_exceptions=True)`. -/
def c9w_outcomes : List (Except String MCP.ExecutionResult) :=
  [Except.ok { task_id := "t0", success := true },
   Except.error "boom",
   Except.ok { task_id := "t2", success := false, error := some "x" }]

/-- Two-replica outcome list with no raised exception. -/
def c9w_ok_outcomes : List (Except String MCP.ExecutionResult) :=
  [Except.ok { task_id := "t0", success := true },
   Except.ok { task_id := "t1", success := false, error := some "x" }]

/-- Claim C9: the exception-conversion path is itself broken.  The
conversion constructs `ExecutionResult(..., execution_time=0)`, but
`execution_time` is `Optional[PositiveFloat]`, so the constructor raises
`ValidationError` inside the unprotected result loop: on a 3-replica
swarm whose middle replica raised, `execute_swarm` aborts with no
response at all, instead of converting the exception into a failed
entry.  On an exception-free outcome list the claimed aggregation does
hold: `successfulReplicas + failedReplicas = N` and
`success = (successfulReplicas > 0)`. -/
theorem c9_prop :
    validExecutionTime (some 0) = false
    ∧ mkExecutionResult "unknown" false (some "boom") (some 0)
        = Except.error "ValidationError"
    ∧ executeSwarm 3 Strategy.parallel c9w_outcomes = Except.error "ValidationError"
    ∧ Except.map SwarmResponse.successful_replicas
        (executeSwarm 2 Strategy.parallel c9w_ok_outcomes) = Except.ok 1
    ∧ Except.map SwarmResponse.failed_replicas
        (executeSwarm 2 Strategy.parallel c9w_ok_outcomes) = Except.ok 1
    ∧ Except.map SwarmResponse.success
        (executeSwarm 2 Strategy.parallel c9w_ok_outcomes) = Except.ok true
    ∧ Except.map SwarmResponse.total_replicas
        (executeSwarm 2 Strategy.parallel c9w_ok_outcomes) = Except.ok 2 := by
  have h0 : validExecutionTime (some 0) = false := by
    simp [validExecutionTime]
  have hmk : mkExecutionResult "unknown" false (some "boom") (some 0)
      = Except.error "ValidationError" := by
    simp [mkExecutionResult, h0]
  refine ⟨h0, hmk, ?_, ?_, ?_, ?_, ?_⟩
  · simp [executeSwarm, processResults, mkExecutionResult, h0, c9w_outcomes]
  · simp [executeSwarm, processResults, c9w_ok_outcomes, Except.map]
  · simp [executeSwarm, processResults, c9w_ok_outcomes, Except.map]
  · simp [executeSwarm, processResults, c9w_ok_outcomes, Except.map]
  · simp [executeSwarm, processResults, c9w_ok_outcomes, Except.map]

/-! ## C10: the created_at default -/

/-- A task built with only the required constructor arguments. -/
def c10w_t : Task := { id := "w" }

/-- Claim C10: the dataclass default of `created_at` is `0`, and
`__post_init__` replaces it only when it is `None` — so a `Task` built
without an explicit `created_at` keeps `created_at = 0`; `submit_task`
then scores it `priority×1,000,000 + 1,000,000`, which beats the score of
every task carrying a real epoch timestamp (≥ 10⁹ here) regardless of
either task's priority (priorities range over 1–4). -/
theorem c10_prop :
    (∀ now : Int, postInitCreatedAt now createdAtFieldDefault = some 0)
    ∧ (∀ (s : QueueState) (task : Task) (fid : String),
        task.created_at = 0 → ¬ task.id = "" →
        zscore (submitTask s task fid).1.pending task.id
          = some (task.priority * 1000000 + 1000000))
    ∧ (∀ p q t : Int, 1 ≤ p → q ≤ 4 → 1000000000 ≤ t →
        priorityScore q t < priorityScore p 0) := by
  refine ⟨?_, ?_, ?_⟩
  · intro now
    rfl
  · intro s task fid hc hid
    unfold submitTask
    rw [if_neg hid]
    dsimp only
    split <;> simp [zscore_zadd_self, hc, priorityScore]
  · intro p q t h1 h2 h3
    simp only [priorityScore]
    omega

/-- Witness for the hypotheses of `c10_prop` at a defaulted task
(priority NORMAL = 2) and the priority bounds 1 and 4. -/
theorem c10_witness :
    postInitCreatedAt 777 createdAtFieldDefault = some 0
    ∧ zscore (submitTask {} c10w_t "f").1.pending "w" = some (2 * 1000000 + 1000000)
    ∧ priorityScore 4 1000000000 < priorityScore 1 0 :=
  ⟨c10_prop.1 777,
   c10_prop.2.1 {} c10w_t "f" rfl (by decide),
   c10_prop.2.2 1 4 1000000000 (by decide) (by decide) (by decide)⟩

/-! ## C2: ordering and eligibility of get_next_task -/

/-- A lower-priority task whose `created_at` is the dataclass default 0. -/
def c2_ta : Task := { id := "a", priority := 1, created_at := 0 }

/-- An URGENT task carrying a real epoch creation timestamp. -/
def c2_tb : Task := { id := "b", priority := 4, created_at := 1700000000 }

def c2_s : QueueState := (submitTask (submitTask {} c2_ta "x").1 c2_tb "y").1

theorem zrevBefore_true_le {a b : String × Int} (h : zrevBefore a b = true) :
    b.2 ≤ a.2 := by
  simp only [zrevBefore, Bool.or_eq_true, Bool.and_eq_true, decide_eq_true_eq,
    beq_iff_eq] at h
  rcases h with h | ⟨h, _⟩ <;> omega

theorem zrevBefore_false_le {a b : String × Int} (h : zrevBefore a b = false) :
    a.2 ≤ b.2 := by
  simp only [zrevBefore, Bool.or_eq_false_iff, decide_eq_false_iff_not] at h
  omega

theorem mem_zinsertRev {x y : String × Int} :
    ∀ {l : List (String × Int)}, y ∈ zinsertRev x l → y = x ∨ y ∈ l := by
  intro l
  induction l with
  | nil =>
    intro h
    simp [zinsertRev] at h
    exact Or.inl h
  | cons a l ih =>
    intro h
    rw [zinsertRev] at h
    by_cases hb : zrevBefore x a = true
    · rw [if_pos hb] at h
      rcases List.mem_cons.mp h with rfl | h
      · exact Or.inl rfl
      · exact Or.inr h
    · rw [if_neg hb] at h
      rcases List.mem_cons.mp h with rfl | h
      · exact Or.inr (List.mem_cons_self _ _)
      · rcases ih h with h | h
        · exact Or.inl h
        · exact Or.inr (List.mem_cons_of_mem _ h)

theorem pairwise_zinsertRev (x : String × Int) :
    ∀ (l : List (String × Int)),
      l.Pairwise (fun a b => b.2 ≤ a.2) →
      (zinsertRev x l).Pairwise (fun a b => b.2 ≤ a.2) := by
  intro l
  induction l with
  | nil =>
    intro _
    simp [zinsertRev]
  | cons a l ih =>
    intro h
    rw [List.pairwise_cons] at h
    rw [zinsertRev]
    by_cases hb : zrevBefore x a = true
    · rw [if_pos hb]
      have hxa := zrevBefore_true_le hb
      refine List.Pairwise.cons ?_ (List.Pairwise.cons h.1 h.2)
      intro y hy
      rcases List.mem_cons.mp hy with rfl | hy
      · exact hxa
      · exact le_trans (h.1 y hy) hxa
    · rw [if_neg hb]
      have hb' : zrevBefore x a = false := by
        revert hb
        cases zrevBefore x a <;> simp
      have hax := zrevBefore_false_le hb'
      refine List.Pairwise.cons ?_ (ih h.2)
      intro y hy
      rcases mem_zinsertRev hy with rfl | hy
      · exact hax
      · exact h.1 y hy

theorem pairwise_zsortRev (z : ZSet) :
    (zsortRev z).Pairwise (fun a b => b.2 ≤ a.2) := by
  induction z with
  | nil => simp [zsortRev]
  | cons x z ih => exact pairwise_zinsertRev x _ ih

theorem map_eq_append_cons {f : α → β} :
    ∀ {l : List α} {p : List β} {b : β} {q : List β},
      l.map f = p ++ b :: q →
      ∃ p' x q', l = p' ++ x :: q' ∧ p'.map f = p ∧ f x = b ∧ q'.map f = q := by
  intro l
  induction l with
  | nil =>
    intro p b q h
    exfalso
    cases p <;> simp at h
  | cons a l ih =>
    intro p b q h
    cases p with
    | nil =>
      rw [List.map_cons, List.nil_append] at h
      injection h with h1 h2
      exact ⟨[], a, l, rfl, rfl, h1, h2⟩
    | cons c p' =>
      rw [List.map_cons, List.cons_append] at h
      injection h with h1 h2
      obtain ⟨p'', x, q'', hl, hp, hx, hq⟩ := ih h2
      exact ⟨a :: p'', x, q'', by rw [hl, List.cons_append], by rw [List.map_cons, hp, h1], hx, hq⟩

/-- Characterization of a successful scan in `get_next_task`: the ids are
split as `pre ++ k :: post`, every id in `pre` is ineligible, the record
at `k` is eligible, and the returned task is that record mutated by
`_assign_task`. -/
theorem scanPending_some (aid : String) (caps : List String) (now : Int) :
    ∀ (ids : List String) (s s' : QueueState) (t : Task),
      scanPending aid caps now s ids = (s', some t) →
      ∃ pre k post u,
        ids = pre ++ k :: post
        ∧ (∀ k' ∈ pre, eligibleKey s.task_data caps k' = false)
        ∧ hget s.task_data k = some u
        ∧ capabilityMismatch caps u = false
        ∧ checkDependencies s.task_data u = true
        ∧ t = { u with status := TaskStatus.assigned, assigned_at := some now,
                        agent_id := some aid } := by
  intro ids
  induction ids with
  | nil =>
    intro s s' t h
    simp [scanPending] at h
  | cons k0 rest ih =>
    intro s s' t h
    rw [scanPending] at h
    cases hk : hget s.task_data k0 with
    | none =>
      rw [hk] at h
      dsimp only at h
      obtain ⟨pre, k, post, u, hids, hpre, hu, hcm, hcd, ht⟩ := ih _ s' t h
      refine ⟨k0 :: pre, k, post, u, by simp [hids], ?_, hu, hcm, hcd, ht⟩
      intro k' hk'
      rcases List.mem_cons.mp hk' with rfl | hk'
      · simp [eligibleKey, hk]
      · exact hpre k' hk'
    | some u0 =>
      rw [hk] at h
      dsimp only at h
      by_cases hcm0 : capabilityMismatch caps u0 = true
      · rw [if_pos hcm0] at h
        obtain ⟨pre, k, post, u, hids, hpre, hu, hcm, hcd, ht⟩ := ih s s' t h
        refine ⟨k0 :: pre, k, post, u, by simp [hids], ?_, hu, hcm, hcd, ht⟩
        intro k' hk'
        rcases List.mem_cons.mp hk' with rfl | hk'
        · simp [eligibleKey, hk, hcm0]
        · exact hpre k' hk'
      · rw [if_neg hcm0] at h
        by_cases hcd0 : checkDependencies s.task_data u0 = true
        · rw [if_pos hcd0] at h
          have ht : t = (assignTask s u0 aid now).2 := by
            have h2 := congrArg Prod.snd h
            simp at h2
            exact h2.symm
          refine ⟨[], k0, rest, u0, rfl, by simp, hk, ?_, hcd0, ?_⟩
          · revert hcm0
            cases capabilityMismatch caps u0 <;> simp
          · rw [ht]
            rfl
        · rw [if_neg hcd0] at h
          obtain ⟨pre, k, post, u, hids, hpre, hu, hcm, hcd, ht⟩ := ih s s' t h
          refine ⟨k0 :: pre, k, post, u, by simp [hids], ?_, hu, hcm, hcd, ht⟩
          intro k' hk'
          rcases List.mem_cons.mp hk' with rfl | hk'
          · simp [eligibleKey, hk, hcd0]
          · exact hpre k' hk'

/-- Claim C2, counterexample: with task `a` (priority LOW = 1, defaulted
`created_at = 0`, score 2,000,000) and task `b` (priority URGENT = 4,
real epoch `created_at`, score 5,000,000 − 1,700,000,000 < 0) both
pending and both eligible, `get_next_task` returns the *lower-priority*
task `a` — the pending index orders by the numeric score
`priority*10⁶ + (10⁶ − createdAt)`, which is not the claimed
(priority desc, createdAt asc) order. -/
theorem c2_counterexample :
    (getNextTask c2_s "ag" [] 1700000100).2.map Task.id = some "a"
    ∧ (hget c2_s.task_data "a").map Task.priority = some 1
    ∧ (hget c2_s.task_data "b").map Task.priority = some 4
    ∧ (zscore c2_s.pending "b").isSome = true
    ∧ eligibleKey c2_s.task_data [] "b" = true
    ∧ ¬ ((4 : Int) ≤ 1) := by
  refine ⟨by decide, by decide, by decide, by decide, by decide, by decide⟩

/-- Claim C2, amended: when `get_next_task` returns a task, that task is
eligible (its capability requirement is satisfied and every dependency
whose record exists is Completed — a dependency with no stored record is
treated as satisfied), and within the scanned prefix — only the first
101 pending entries, in descending order of the stored numeric score
`priority*10⁶ + (10⁶ − createdAt)` — everything strictly ahead of the
returned task was ineligible, and everything after it scores no higher:
the returned task maximises the stored score among eligible entries of
the scanned prefix, which matches (priority desc, createdAt asc) only
while `createdAt` gaps stay under 10⁶ per priority step. -/
theorem c2_prop (s : QueueState) (aid : String) (caps : List String) (now : Int)
    (s' : QueueState) (t : Task)
    (hwk : ∀ k u, hget s.task_data k = some u → u.id = k)
    (h : getNextTask s aid caps now = (s', some t)) :
    capabilityMismatch caps t = false
    ∧ checkDependencies s.task_data t = true
    ∧ (∀ dep d, dep ∈ t.dependencies → hget s.task_data dep = some d →
        d.status = TaskStatus.completed)
    ∧ ∃ pre sc post,
        (zsortRev s.pending).take 101 = pre ++ (t.id, sc) :: post
        ∧ (∀ p ∈ pre, eligibleKey s.task_data caps p.1 = false)
        ∧ (∀ p ∈ post, p.2 ≤ sc) := by
  unfold getNextTask at h
  obtain ⟨pre, k, post, u, hids, hpre, hu, hcm, hcd, ht⟩ :=
    scanPending_some aid caps now _ _ _ _ h
  have htcm : capabilityMismatch caps t = false := by
    rw [ht]
    exact hcm
  have htcd : checkDependencies s.task_data t = true := by
    rw [ht]
    exact hcd
  refine ⟨htcm, htcd, ?_, ?_⟩
  · intro dep d hdep hd
    rw [checkDependencies, List.all_eq_true] at htcd
    have h2 := htcd dep hdep
    rw [hd] at h2
    simpa using h2
  · have hids2 : ((zsortRev s.pending).take 101).map (fun e => e.1) = pre ++ k :: post := hids
    obtain ⟨preP, xP, postP, hpairs, hmap1, hfst, hmap2⟩ := map_eq_append_cons hids2
    have hsorted : ((zsortRev s.pending).take 101).Pairwise (fun a b => b.2 ≤ a.2) :=
      (pairwise_zsortRev s.pending).sublist (List.take_sublist _ _)
    rw [hpairs] at hsorted
    have hpost : ∀ p ∈ postP, p.2 ≤ xP.2 := by
      have h3 := (List.pairwise_append.mp hsorted).2.1
      rw [List.pairwise_cons] at h3
      exact h3.1
    have htid : t.id = xP.1 := by
      rw [ht]
      show u.id = xP.1
      rw [hwk k u hu, hfst]
    refine ⟨preP, xP.2, postP, ?_, ?_, hpost⟩
    · rw [hpairs, htid]
    · intro p hp
      have hmem : p.1 ∈ pre := by
        rw [← hmap1]
        exact List.mem_map_of_mem _ hp
      exact hpre p.1 hmem

theorem wellKeyed_nil : ∀ (k : String) (u : Task), hget ([] : List (String × Task)) k = some u → u.id = k := by
  intro k u hu
  simp [hget] at hu

theorem wellKeyed_cons (k0 : String) (t0 : Task) (rest : List (String × Task))
    (h0 : t0.id = k0) (hrest : ∀ k u, hget rest k = some u → u.id = k) :
    ∀ (k : String) (u : Task), hget ((k0, t0) :: rest) k = some u → u.id = k := by
  intro k u hu
  by_cases hk : k0 = k
  · subst hk
    simp [hget, List.find?_cons, beq_self_eq_true] at hu
    subst hu
    exact h0
  · have hk2 : ((k0, t0).1 == k) = false := by
      simpa using hk
    unfold hget at hu
    rw [List.find?_cons_of_neg] at hu
    · exact hrest k u hu
    · simp [hk2]

def c2w_res : QueueState × Option Task := getNextTask c2_s "ag" [] 1700000100

def c2w_s1 : QueueState := c2w_res.1

def c2w_t : Task := c2w_res.2.getD c2_ta

/-- Witness for the hypotheses of `c2_prop` at the two-task state of
the C2 scenario. -/
theorem c2_witness : capabilityMismatch [] c2w_t = false :=
  (c2_prop c2_s "ag" [] 1700000100 c2w_s1 c2w_t
    (wellKeyed_cons "b" c2_tb _ rfl (wellKeyed_cons "a" c2_ta _ rfl wellKeyed_nil))
    (by decide)).1

end SwarmSpec
